import Mathlib

/-!
# AID: container lifecycle and build-artifact rendering

A shallow embedding of `internal/runtime/docker/container.go` (Create, Start,
Stop, RemoveContainer), `internal/runtime/docker/renderer.go`
(RenderDockerfile, RenderRunnerTpl) and the entity schema of
`ent/schema/image.go`.

The entity store and the container engine are external collaborators.  What
they answer during one call is an explicit argument (`World`); the store's
contents (`Store`) are threaded through every operation, and each operation
reports the engine calls it issued.  Calls that only log
(`utilities.Formatter.*`, `utilities.ReportError`) touch neither the store nor
the engine nor the control flow and are left out.
-/

namespace AID

/-! ## Go strings -/

/-- A Go string is a sequence of bytes: `len` and `s[i:j]` count bytes. -/
abbrev GoString := List UInt8

/-- The bytes of a string literal of the source (UTF-8). -/
def str (s : String) : GoString := s.toUTF8.data.toList

/-- The slice expression `s[lo:hi]`; `none` is the run-time panic
"slice bounds out of range". -/
def slice (s : GoString) (lo hi : Nat) : Option GoString :=
  if lo ≤ hi ∧ hi ≤ s.length then some ((s.drop lo).take (hi - lo)) else none

/-- A non-nil Go `error`, kept as its message. -/
abbrev GoError := GoString

/-! ## Entity schema (`ent/schema/image.go`) -/

/-- Image entity: fields `uid`, `title`, `created_at`, and the unique edge
`solver`; `id` is the primary key the store assigns. -/
structure Image where
  id : Nat
  uid : GoString
  title : GoString
  created_at : Nat
  solver : Option Nat
  deriving DecidableEq, Repr

/-- Container entity: fields `uid`, `port`, `running` (default false),
`created_at`, and the edge `image` (primary keys of the Images it points to);
`id` is the primary key the store assigns. -/
structure Container where
  id : Nat
  uid : GoString
  port : GoString
  running : Bool
  created_at : Nat
  image : List Nat
  deriving DecidableEq, Repr

/-- Contents of the entity store. -/
structure Store where
  images : List Image
  containers : List Container
  deriving DecidableEq, Repr

/-! ## The engine's request types -/

/-- One `nat.PortBinding`. -/
structure PortBinding where
  HostIP : GoString
  HostPort : GoString
  deriving DecidableEq, Repr

/-- The fields of `container.Config` that Create sets. -/
structure Config where
  Image : GoString
  Tty : Bool
  ExposedPorts : List GoString
  deriving DecidableEq, Repr

/-- The fields of `container.HostConfig` that Create sets: the port map, as
pairs of a container port and its bindings. -/
structure HostConfig where
  PortBindings : List (GoString × List PortBinding)
  deriving DecidableEq, Repr

/-- The value `ContainerCreate` returns (`ContainerCreateCreatedBody`); only
`ID` is read by the code. -/
structure CreatedBody where
  ID : GoString
  deriving DecidableEq, Repr

/-- A call issued to the container engine. -/
inductive RuntimeCall where
  | ContainerCreate (config : Config) (hostConfig : HostConfig) (containerName : GoString)
  | ContainerStart (containerID : GoString)
  | ContainerStop (containerID : GoString)
  | ContainerRemove (containerID : GoString)
  deriving DecidableEq, Repr

/-! ## Behaviour of the collaborators during one call -/

/-- What the store and the engine answer during one lifecycle call.  Every
operation issues at most one store query, one engine call and one store
write, in that order. -/
structure World where
  /-- the store query fails with this error whatever the store holds -/
  queryErr : Option GoError
  /-- the engine call fails with this error -/
  runtimeErr : Option GoError
  /-- the body `ContainerCreate` returns -/
  resp : CreatedBody
  /-- the store write fails with this error and changes nothing -/
  writeErr : Option GoError
  /-- the clock read by the `created_at` default -/
  now : Nat
  /-- the primary key the store gives a new record -/
  newID : Nat
  deriving DecidableEq, Repr

/-- How a call ends: the process is ended by `os.Exit(code)`, the goroutine
panics, or the function returns a value and an error (`none` is nil). -/
inductive Outcome (α : Type) where
  | exited (code : Nat)
  | panicked
  | returned (val : α) (err : Option GoError)
  deriving DecidableEq, Repr

/-- A call ends in failure when it does not return a nil error (or exit
with status 0). -/
def Outcome.failed {α : Type} : Outcome α → Bool
  | .exited code => code != 0
  | .panicked => true
  | .returned _ err => err.isSome

/-- A call returns success when it returns with a nil error. -/
def Outcome.success {α : Type} : Outcome α → Bool
  | .returned _ none => true
  | _ => false

/-- What a lifecycle call leaves behind. -/
structure Result (α : Type) where
  outcome : Outcome α
  store : Store
  calls : List RuntimeCall

/-! ## Store operations used by the lifecycle code -/

/-- The error of `First` on an empty result set (`ent.NotFoundError`). -/
def notFound (label : String) : GoError := str "ent: " ++ str label ++ str " not found"

/-- The query `Image.Query().Where(entImage.UID(uid)).First(ctx)`. -/
def imageFirst (w : World) (s : Store) (uid : GoString) : Except GoError Image :=
  match w.queryErr with
  | some e => .error e
  | none =>
    match s.images.find? (fun i => decide (i.uid = uid)) with
    | some i => .ok i
    | none => .error (notFound "image")

/-- The query `Container.Query().Where(entContainer.UID(uid)).First(ctx)`. -/
def containerFirst (w : World) (s : Store) (uid : GoString) : Except GoError Container :=
  match w.queryErr with
  | some e => .error e
  | none =>
    match s.containers.find? (fun c => decide (c.uid = uid)) with
    | some c => .ok c
    | none => .error (notFound "container")

/-- The write `Container.Create().SetUID(uid).SetPort(port).AddImage(image).Save(ctx)`:
`running` and `created_at` take their schema defaults. -/
def containerCreateSave (w : World) (s : Store) (uid port : GoString) (image : Image) :
    Store × Option GoError :=
  match w.writeErr with
  | some e => (s, some e)
  | none =>
    let record : Container :=
      { id := w.newID, uid := uid, port := port, running := false,
        created_at := w.now, image := [image.id] }
    ({ s with containers := s.containers ++ [record] }, none)

/-- The write `containerEnt.Update().SetRunning(b).Save(ctx)`: an update of the
one record with the primary key of `containerEnt`. -/
def containerSetRunning (w : World) (s : Store) (containerEnt : Container) (b : Bool) :
    Store × Option GoError :=
  match w.writeErr with
  | some e => (s, some e)
  | none =>
    let update : Container → Container :=
      fun c => if c.id = containerEnt.id then { c with running := b } else c
    ({ s with containers := s.containers.map update }, none)

/-- The write `Container.Delete().Where(entContainer.UID(uid)).Exec(ctx)`. -/
def containerDeleteWhereUID (w : World) (s : Store) (uid : GoString) :
    Store × Option GoError :=
  match w.writeErr with
  | some e => (s, some e)
  | none => ({ s with containers := s.containers.filter (fun c => !decide (c.uid = uid)) }, none)

/-! ## `container.go` -/

/-- Create creates a docker container. -/
def Create (w : World) (s : Store) (imageUID hostPort : GoString) : Result CreatedBody :=
  match imageFirst w s imageUID with
  | .error _ => ⟨.exited 3, s, []⟩
  | .ok image =>
    let hostConfig : HostConfig :=
      { PortBindings := [(str "8080/tcp", [{ HostIP := str "0.0.0.0", HostPort := hostPort }])] }
    let config : Config :=
      { Image := image.uid, Tty := true, ExposedPorts := [str "8080/tcp"] }
    let call := RuntimeCall.ContainerCreate config hostConfig image.uid
    match w.runtimeErr with
    | some err => ⟨.returned w.resp (some err), s, [call]⟩
    | none =>
      match slice w.resp.ID 0 10 with
      | none => ⟨.panicked, s, [call]⟩
      | some uid =>
        let saved := containerCreateSave w s uid hostPort image
        ⟨.returned w.resp saved.2, saved.1, [call]⟩

/-- Start will start a docker container. -/
def Start (w : World) (s : Store) (containerID : GoString) : Result Unit :=
  match containerFirst w s containerID with
  | .error _ => ⟨.exited 3, s, []⟩
  | .ok containerEnt =>
    if containerEnt.running then ⟨.exited 4, s, []⟩
    else
      let call := RuntimeCall.ContainerStart containerEnt.uid
      match w.runtimeErr with
      | some err => ⟨.returned () (some err), s, [call]⟩
      | none =>
        let saved := containerSetRunning w s containerEnt true
        ⟨.returned () none, saved.1, [call]⟩

/-- Stop will stop a docker container. -/
def Stop (w : World) (s : Store) (containerID : GoString) : Result Unit :=
  match containerFirst w s containerID with
  | .error _ => ⟨.exited 3, s, []⟩
  | .ok containerEnt =>
    if !containerEnt.running then ⟨.exited 4, s, []⟩
    else
      let call := RuntimeCall.ContainerStop containerEnt.uid
      match w.runtimeErr with
      | some err => ⟨.returned () (some err), s, [call]⟩
      | none =>
        let saved := containerSetRunning w s containerEnt false
        match saved.2 with
        | some err => ⟨.returned () (some err), saved.1, [call]⟩
        | none => ⟨.returned () none, saved.1, [call]⟩

/-- RemoveContainer will remove a docker container. -/
def RemoveContainer (w : World) (s : Store) (containerID : GoString) : Result Unit :=
  match containerFirst w s containerID with
  | .error _ => ⟨.exited 3, s, []⟩
  | .ok containerEnt =>
    if containerEnt.running then ⟨.exited 4, s, []⟩
    else
      let call := RuntimeCall.ContainerRemove containerEnt.uid
      match w.runtimeErr with
      | some err => ⟨.returned () (some err), s, [call]⟩
      | none =>
        let deleted := containerDeleteWhereUID w s containerID
        match deleted.2 with
        | some err => ⟨.returned () (some err), deleted.1, [call]⟩
        | none => ⟨.returned () none, deleted.1, [call]⟩

/-! ## `renderer.go` -/

/-- A `pongo2.Context`: the keys of the map literal and their values. -/
abbrev PongoContext := List (GoString × GoString)

/-- A parsed template: `tpl.Execute(ctx)` gives the rendered text and an
error. -/
abbrev Template := PongoContext → GoString × Option GoError

/-- The function `filepath.Join(dir, name)` of the Go library. -/
abbrev PathJoin := GoString → GoString → GoString

/-- One call of `utilities.WriteContentToFile(path, content)`. -/
structure FileWrite where
  path : GoString
  content : GoString
  deriving DecidableEq, Repr

/-- What RenderDockerfile finds for a snippet file (`setup.sh`, `prepip.sh`):
no such file (`utilities.IsExists` is false), a file that `os.Open` cannot
open, or a readable file, given by the tokens `scanner.Text()` yields, one per
line. -/
inductive Snippet where
  | absent
  | unreadable
  | readable (lines : List GoString)
  deriving DecidableEq, Repr

/-- How a rendering call ends. -/
inductive RenderOutcome where
  | finished
  | panicked
  deriving DecidableEq, Repr

/-- What a rendering call leaves behind: the contexts it executed the
template on and the files it wrote, both in order. -/
structure RenderResult where
  outcome : RenderOutcome
  executed : List PongoContext
  writes : List FileWrite
  deriving DecidableEq, Repr

/-- The loop `for scanner.Scan() { ... }` of RenderDockerfile over the lines
still to be scanned, from the current value of the command variable. -/
def scanLoop (commands : GoString) : List GoString → GoString
  | [] => commands
  | text :: rest =>
    scanLoop (if commands = [] then text else commands ++ str " && " ++ text) rest

/-- The value RenderDockerfile computes for `setupCommands` (and, by the same
code, `prepipCommands`).  A file that cannot be opened leaves a nil handle,
on which the scanner yields no line. -/
def snippetCommands : Snippet → GoString
  | .absent => str "echo There is no command for extra installation"
  | .unreadable => scanLoop (str "echo An error occured in parsing setup file") []
  | .readable lines => scanLoop [] lines

/-- RenderDockerfile returns the final dockerfile. -/
def RenderDockerfile (tpl : Template) (join : PathJoin) (setup prepip : Snippet)
    (solvername targetFilePath : GoString) : RenderResult :=
  let filename := join targetFilePath (str "docker_" ++ solvername)
  let setupCommands := snippetCommands setup
  let prepipCommands := snippetCommands prepip
  let ctx : PongoContext :=
    [(str "Solvername", solvername), (str "Setup", setupCommands), (str "PrePIP", prepipCommands)]
  let out := (tpl ctx).1
  ⟨.finished, [ctx], [⟨filename, out⟩]⟩

/-- The fields of `ent.Solver` that RenderRunnerTpl reads. -/
structure Solver where
  Name : GoString
  Class : GoString
  deriving DecidableEq, Repr

/-- The byte of the separator "/". -/
def slash : UInt8 := 47

/-- The function `strings.Split(s, sep)` for a separator of one byte. -/
def stringsSplit (sep : UInt8) : GoString → List GoString
  | [] => [[]]
  | b :: rest =>
    if b = sep then [] :: stringsSplit sep rest
    else
      match stringsSplit sep rest with
      | [] => [[b]]
      | piece :: pieces => (b :: piece) :: pieces

/-- RenderRunnerTpl returns the final runner file: the loop over `mySolvers`.
An index expression `tplContext[i]` past the end of the slice panics. -/
def RenderRunnerTpl (tpl : Template) (join : PathJoin) (tempFilePath : GoString) :
    List Solver → RenderResult
  | [] => ⟨.finished, [], []⟩
  | solver :: rest =>
    let filename := str "runner_" ++ solver.Name ++ str ".py"
    let fileFullPath := join tempFilePath filename
    let tplContext := stringsSplit slash solver.Class
    match tplContext[0]?, tplContext[1]?, tplContext[2]? with
    | some package, some file, some classname =>
      let ctx : PongoContext :=
        [(str "Package", package), (str "Filename", file), (str "Classname", classname)]
      let out := (tpl ctx).1
      let later := RenderRunnerTpl tpl join tempFilePath rest
      ⟨later.outcome, ctx :: later.executed, ⟨fileFullPath, out⟩ :: later.writes⟩
    | _, _, _ => ⟨.panicked, [], []⟩

/-- Joining strings with a separator between neighbours, as `strings.Join`
does. -/
def stringsJoin (sep : GoString) : List GoString → GoString
  | [] => []
  | [x] => x
  | x :: y :: rest => x ++ sep ++ stringsJoin sep (y :: rest)

/-- The snippet value as the specification words it: the non-empty lines, in
their order, joined with " && ". -/
def specSnippetCommands (lines : List GoString) : GoString :=
  stringsJoin (str " && ") (lines.filter (fun l => !decide (l = [])))

/-- The context RenderRunnerTpl builds from the first three components of
a class. -/
def runnerContext (solver : Solver) : PongoContext :=
  [(str "Package", (stringsSplit slash solver.Class).getD 0 []),
   (str "Filename", (stringsSplit slash solver.Class).getD 1 []),
   (str "Classname", (stringsSplit slash solver.Class).getD 2 [])]

/-- The runner file of a solver: "runner_<Name>.py" in the target directory,
holding the template rendered on the solver's context. -/
def runnerFile (tpl : Template) (join : PathJoin) (tempFilePath : GoString)
    (solver : Solver) : FileWrite :=
  ⟨join tempFilePath (str "runner_" ++ solver.Name ++ str ".py"), (tpl (runnerContext solver)).1⟩

/-- A call stopped at a guard: the process exits with `code`, which is a
failure, no engine call was issued and the store is the store `s` it
started from. -/
def stoppedAtGuard {α : Type} (r : Result α) (s : Store) (code : Nat) : Prop :=
  r.outcome = .exited code ∧ r.outcome.failed = true ∧ r.calls = [] ∧ r.store = s

/-- Every collaborator call of one lifecycle call succeeds: the store query,
the engine call and the store write. -/
def World.allSucceed (w : World) : Prop :=
  w.queryErr = none ∧ w.runtimeErr = none ∧ w.writeErr = none

/-- The Container record Create saves on host port `hostPort` from the image
`image` when the engine answers `w.resp`, with its running flag set to
`running`. -/
def createdRecord (w : World) (image : Image) (hostPort : GoString) (running : Bool) :
    Container :=
  { id := w.newID, uid := w.resp.ID.take 10, port := hostPort, running := running,
    created_at := w.now, image := [image.id] }

/-! ## Concrete inputs -/

/-- An image with uid "img1". -/
def exImage : Image :=
  { id := 1, uid := str "img1", title := str "solver", created_at := 0, solver := some 1 }

/-- A stopped container with uid "0123456789" made from `exImage`. -/
def exStopped : Container :=
  { id := 1, uid := str "0123456789", port := str "9000", running := false,
    created_at := 5, image := [1] }

/-- The same container, running. -/
def exRunning : Container := { exStopped with running := true }

/-- A second container, running, with its own primary key and uid. -/
def exOther : Container :=
  { id := 2, uid := str "abcdefghij", port := str "9001", running := true,
    created_at := 6, image := [1] }

/-- A store with the image, the stopped container and the second container. -/
def exStoreTwo : Store := { images := [exImage], containers := [exStopped, exOther] }

/-- A store with the image only. -/
def exStoreEmpty : Store := { images := [exImage], containers := [] }

/-- A store with the image and the stopped container. -/
def exStoreStopped : Store := { images := [exImage], containers := [exStopped] }

/-- A store with the image and the running container. -/
def exStoreRunning : Store := { images := [exImage], containers := [exRunning] }

/-- Every collaborator call succeeds; the engine returns a 12-byte id. -/
def exWorldOK : World :=
  { queryErr := none, runtimeErr := none, resp := ⟨str "0123456789ab"⟩, writeErr := none,
    now := 7, newID := 2 }

/-- The engine call fails. -/
def exWorldRuntimeFails : World := { exWorldOK with runtimeErr := some (str "engine unreachable") }

/-- The engine call succeeds and the store write fails. -/
def exWorldWriteFails : World := { exWorldOK with writeErr := some (str "database is locked") }

/-- A solver with a class of three components. -/
def exSolverGood : Solver := ⟨str "s1", str "pkg/file/Cls"⟩

/-- A solver with a class of one component. -/
def exSolverShort : Solver := ⟨str "s2", str "pkgonly"⟩

/-- A solver with a class of four components. -/
def exSolverLong : Solver := ⟨str "s3", str "a/b/c/d"⟩

/-- The lines of a snippet file with a blank line between two commands. -/
def exLinesBlank : List GoString := [str "apt-get update", str "", str "apt-get install -y x"]

/-- The lines of the snippet file of the specification's example. -/
def exLines : List GoString := [str "apt-get update", str "apt-get install -y x"]

/-- A template that renders the values of its context, one per line. -/
def exTemplate : Template := fun ctx => ((ctx.map (fun kv => kv.2 ++ [10])).flatten, none)

/-- Joining a directory and a file name with "/". -/
def exJoin : PathJoin := fun dir name => dir ++ str "/" ++ name

/-! ## Lemmas on the store operations -/

theorem find_uid_map_setRunning (cid : GoString) (k : Nat) (b : Bool) (c : Container)
    (l : List Container)
    (h : l.find? (fun x => decide (x.uid = cid)) = some c) (hk : c.id = k) :
    (l.map (fun x => if x.id = k then { x with running := b } else x)).find?
      (fun x => decide (x.uid = cid)) = some { c with running := b } := by
  induction l with
  | nil => simp at h
  | cons a l ih =>
    by_cases ha : a.uid = cid
    · have hac : a = c := by simpa [List.find?, ha] using h
      subst hac
      simp [List.find?, ha, hk]
    · have hrest : l.find? (fun x => decide (x.uid = cid)) = some c := by
        simpa [List.find?, ha] using h
      have hstep : (if a.id = k then { a with running := b } else a).uid = a.uid := by
        split <;> rfl
      simp only [List.map_cons, List.find?, hstep, ha, decide_False]
      exact ih hrest

theorem find_uid_filter_ne (cid : GoString) (l : List Container) :
    (l.filter (fun x => !decide (x.uid = cid))).find? (fun x => decide (x.uid = cid)) = none := by
  simp [List.find?_eq_none, List.mem_filter]

theorem containerFirst_ok (w : World) (s : Store) (cid : GoString) (c : Container)
    (h : containerFirst w s cid = .ok c) :
    w.queryErr = none ∧ s.containers.find? (fun x => decide (x.uid = cid)) = some c := by
  unfold containerFirst at h
  split at h
  · cases h
  · split at h
    · simp only [Except.ok.injEq] at h
      subst h
      constructor <;> assumption
    · cases h

theorem imageFirst_ok (w : World) (s : Store) (uid : GoString) (i : Image)
    (h : imageFirst w s uid = .ok i) :
    w.queryErr = none ∧ s.images.find? (fun x => decide (x.uid = uid)) = some i := by
  unfold imageFirst at h
  split at h
  · cases h
  · split at h
    · simp only [Except.ok.injEq] at h
      subst h
      constructor <;> assumption
    · cases h


/-! ## Lifecycle guards -/

/-- What does hold of a Start that returns success: the record resolved was
not running, the engine was asked once to start it, and the store changed
only if the write went through. -/
theorem Start_success_inv (w : World) (s : Store) (containerID : GoString)
    (h : (Start w s containerID).outcome.success = true) :
    ∃ c, s.containers.find? (fun x => decide (x.uid = containerID)) = some c ∧
      c.running = false ∧
      (Start w s containerID).calls = [.ContainerStart c.uid] ∧
      (w.writeErr = none →
        (Start w s containerID).store.containers.find? (fun x => decide (x.uid = containerID))
          = some { c with running := true }) ∧
      (w.writeErr ≠ none → (Start w s containerID).store = s) := by
  unfold Start at h ⊢
  cases hq : containerFirst w s containerID with
  | error e => simp [hq, Outcome.success] at h
  | ok c =>
    obtain ⟨_, hfind⟩ := containerFirst_ok w s containerID c hq
    simp only [hq] at h ⊢
    cases hr : c.running with
    | true => simp [hr, Outcome.success] at h
    | false =>
      simp only [hr] at h ⊢
      cases hrt : w.runtimeErr with
      | some e => simp [hrt, Outcome.success] at h
      | none =>
        refine ⟨c, hfind, hr, by simp, ?_, ?_⟩
        · intro hw
          have hmap := find_uid_map_setRunning containerID c.id true c s.containers hfind rfl
          simpa [containerSetRunning, hw] using hmap
        · intro hw
          cases hwe : w.writeErr with
          | none => exact absurd hwe hw
          | some e => simp [containerSetRunning, hwe]

/-- C1, at the failing input: the store holds one stopped container, the
engine starts it and the store write fails.  Start returns a nil error and
the record it resolved is still stored with running=false. -/
theorem Start_success_leaves_running_false :
    (Start exWorldWriteFails exStoreStopped (str "0123456789")).outcome.success = true ∧
    exStoreStopped.containers.find? (fun x => decide (x.uid = str "0123456789"))
      = some exStopped ∧
    (Start exWorldWriteFails exStoreStopped (str "0123456789")).store.containers.find?
      (fun x => decide (x.uid = str "0123456789")) = some exStopped ∧
    exStopped.running = false := by
  decide

/-- C2: if Stop returns a nil error, the record the query resolved for
containerID was stored with running=true before the call, and after the call
the same query resolves to that record with running=false. -/
theorem Stop_success_flips_running (w : World) (s : Store) (containerID : GoString)
    (h : (Stop w s containerID).outcome.success = true) :
    ∃ c, s.containers.find? (fun x => decide (x.uid = containerID)) = some c ∧
      c.running = true ∧
      (Stop w s containerID).store.containers.find? (fun x => decide (x.uid = containerID))
        = some { c with running := false } := by
  unfold Stop at h ⊢
  cases hq : containerFirst w s containerID with
  | error e => simp [hq, Outcome.success] at h
  | ok c =>
    obtain ⟨_, hfind⟩ := containerFirst_ok w s containerID c hq
    simp only [hq] at h ⊢
    cases hr : c.running with
    | false => simp [hr, Outcome.success] at h
    | true =>
      simp only [hr] at h ⊢
      cases hrt : w.runtimeErr with
      | some e => simp [hrt, Outcome.success] at h
      | none =>
        cases hwe : w.writeErr with
        | some e => simp [hrt, hwe, containerSetRunning, Outcome.success] at h
        | none =>
          refine ⟨c, hfind, hr, ?_⟩
          have hmap := find_uid_map_setRunning containerID c.id false c s.containers hfind rfl
          simpa [containerSetRunning, hwe] using hmap

theorem Stop_success_flips_running_witness :
    (Stop exWorldOK exStoreRunning (str "0123456789")).outcome.success = true ∧
    ∃ c, exStoreRunning.containers.find? (fun x => decide (x.uid = str "0123456789")) = some c ∧
      c.running = true ∧
      (Stop exWorldOK exStoreRunning (str "0123456789")).store.containers.find?
        (fun x => decide (x.uid = str "0123456789")) = some { c with running := false } :=
  ⟨by decide, Stop_success_flips_running exWorldOK exStoreRunning (str "0123456789") (by decide)⟩

/-- C3: if RemoveContainer returns a nil error, the record the query resolved
for containerID was stored with running=false before the call, and after the
call the store holds no Container with uid = containerID: the same query
finds nothing and answers with the not-found error. -/
theorem RemoveContainer_success_deletes (w : World) (s : Store) (containerID : GoString)
    (h : (RemoveContainer w s containerID).outcome.success = true) :
    (∃ c, s.containers.find? (fun x => decide (x.uid = containerID)) = some c ∧
      c.running = false) ∧
    (∀ c ∈ (RemoveContainer w s containerID).store.containers, c.uid ≠ containerID) ∧
    containerFirst w (RemoveContainer w s containerID).store containerID
      = .error (notFound "container") := by
  unfold RemoveContainer at h ⊢
  cases hq : containerFirst w s containerID with
  | error e => simp [hq, Outcome.success] at h
  | ok c =>
    obtain ⟨hqe, hfind⟩ := containerFirst_ok w s containerID c hq
    simp only [hq] at h ⊢
    cases hr : c.running with
    | true => simp [hr, Outcome.success] at h
    | false =>
      simp only [hr] at h ⊢
      cases hrt : w.runtimeErr with
      | some e => simp [hrt, Outcome.success] at h
      | none =>
        cases hwe : w.writeErr with
        | some e => simp [hrt, hwe, containerDeleteWhereUID, Outcome.success] at h
        | none =>
          refine ⟨⟨c, hfind, hr⟩, ?_, ?_⟩
          · intro x hx
            simp [containerDeleteWhereUID, hwe, List.mem_filter] at hx
            exact hx.2
          · simp only [containerDeleteWhereUID, hwe, containerFirst, hqe, Bool.false_eq_true,
              if_false, find_uid_filter_ne]

theorem RemoveContainer_success_deletes_witness :
    (RemoveContainer exWorldOK exStoreStopped (str "0123456789")).outcome.success = true ∧
    ((∃ c, exStoreStopped.containers.find? (fun x => decide (x.uid = str "0123456789")) = some c ∧
      c.running = false) ∧
    (∀ c ∈ (RemoveContainer exWorldOK exStoreStopped (str "0123456789")).store.containers,
      c.uid ≠ str "0123456789") ∧
    containerFirst exWorldOK (RemoveContainer exWorldOK exStoreStopped (str "0123456789")).store
      (str "0123456789") = .error (notFound "container")) :=
  ⟨by decide,
   RemoveContainer_success_deletes exWorldOK exStoreStopped (str "0123456789") (by decide)⟩


/-! ## Failures of the collaborators -/

/-- C4: when the engine call of Create, Start, Stop or RemoveContainer is
issued and fails, the operation returns that error and the store after the
call is the store before it; RemoveContainer therefore changes the store only
when the engine removal has succeeded. -/
theorem runtime_failure_leaves_store (w : World) (s : Store)
    (imageUID hostPort containerID : GoString) (e : GoError)
    (hfail : w.runtimeErr = some e) :
    ((Create w s imageUID hostPort).calls ≠ [] →
      (Create w s imageUID hostPort).outcome = .returned w.resp (some e) ∧
      (Create w s imageUID hostPort).store = s) ∧
    ((Start w s containerID).calls ≠ [] →
      (Start w s containerID).outcome = .returned () (some e) ∧
      (Start w s containerID).store = s) ∧
    ((Stop w s containerID).calls ≠ [] →
      (Stop w s containerID).outcome = .returned () (some e) ∧
      (Stop w s containerID).store = s) ∧
    ((RemoveContainer w s containerID).calls ≠ [] →
      (RemoveContainer w s containerID).outcome = .returned () (some e) ∧
      (RemoveContainer w s containerID).store = s) ∧
    (RemoveContainer w s containerID).store = s := by
  refine ⟨?_, ?_, ?_, ?_, ?_⟩
  · unfold Create
    cases imageFirst w s imageUID with
    | error _ => simp
    | ok image => simp [hfail]
  · unfold Start
    cases containerFirst w s containerID with
    | error _ => simp
    | ok c => cases hr : c.running <;> simp [hfail, hr]
  · unfold Stop
    cases containerFirst w s containerID with
    | error _ => simp
    | ok c => cases hr : c.running <;> simp [hfail, hr]
  · unfold RemoveContainer
    cases containerFirst w s containerID with
    | error _ => simp
    | ok c => cases hr : c.running <;> simp [hfail, hr]
  · unfold RemoveContainer
    cases containerFirst w s containerID with
    | error _ => simp
    | ok c => cases hr : c.running <;> simp [hfail, hr]

theorem runtime_failure_leaves_store_witness :
    ((Create exWorldRuntimeFails exStoreStopped (str "img1") (str "9000")).calls ≠ [] ∧
      (Create exWorldRuntimeFails exStoreStopped (str "img1") (str "9000")).outcome
        = .returned exWorldRuntimeFails.resp (some (str "engine unreachable")) ∧
      (Create exWorldRuntimeFails exStoreStopped (str "img1") (str "9000")).store
        = exStoreStopped) ∧
    ((Start exWorldRuntimeFails exStoreStopped (str "0123456789")).calls ≠ [] ∧
      (Start exWorldRuntimeFails exStoreStopped (str "0123456789")).outcome
        = .returned () (some (str "engine unreachable")) ∧
      (Start exWorldRuntimeFails exStoreStopped (str "0123456789")).store = exStoreStopped) ∧
    ((Stop exWorldRuntimeFails exStoreRunning (str "0123456789")).calls ≠ [] ∧
      (Stop exWorldRuntimeFails exStoreRunning (str "0123456789")).outcome
        = .returned () (some (str "engine unreachable")) ∧
      (Stop exWorldRuntimeFails exStoreRunning (str "0123456789")).store = exStoreRunning) ∧
    ((RemoveContainer exWorldRuntimeFails exStoreStopped (str "0123456789")).calls ≠ [] ∧
      (RemoveContainer exWorldRuntimeFails exStoreStopped (str "0123456789")).outcome
        = .returned () (some (str "engine unreachable")) ∧
      (RemoveContainer exWorldRuntimeFails exStoreStopped (str "0123456789")).store
        = exStoreStopped) :=
  ⟨⟨by decide, (runtime_failure_leaves_store exWorldRuntimeFails exStoreStopped (str "img1")
      (str "9000") (str "0123456789") (str "engine unreachable") rfl).1 (by decide)⟩,
   ⟨by decide, (runtime_failure_leaves_store exWorldRuntimeFails exStoreStopped (str "img1")
      (str "9000") (str "0123456789") (str "engine unreachable") rfl).2.1 (by decide)⟩,
   ⟨by decide, (runtime_failure_leaves_store exWorldRuntimeFails exStoreRunning (str "img1")
      (str "9000") (str "0123456789") (str "engine unreachable") rfl).2.2.1 (by decide)⟩,
   ⟨by decide, (runtime_failure_leaves_store exWorldRuntimeFails exStoreStopped (str "img1")
      (str "9000") (str "0123456789") (str "engine unreachable") rfl).2.2.2.1 (by decide)⟩⟩

/-- C5: a lifecycle call whose store precondition does not hold stops at its
guard: Create on an imageUID that resolves to no Image, and Start, Stop and
RemoveContainer on a containerID that resolves to no Container, exit with
status 3; Start and RemoveContainer on a running record and Stop on a stopped
record exit with status 4.  Each is a failure with no engine call and an
unchanged store, and the exit of Create on an unresolved image differs from
what Create does when the engine create call fails (it returns the engine's
error). -/
theorem guard_violation_stops (w : World) (s : Store)
    (imageUID hostPort containerID : GoString) :
    ((∀ image, imageFirst w s imageUID ≠ .ok image) →
      stoppedAtGuard (Create w s imageUID hostPort) s 3 ∧
      ∀ (w2 : World) (s2 : Store) (imageUID2 hostPort2 : GoString),
        w2.runtimeErr ≠ none → (Create w2 s2 imageUID2 hostPort2).calls ≠ [] →
        (Create w2 s2 imageUID2 hostPort2).outcome.failed = true ∧
        (Create w2 s2 imageUID2 hostPort2).outcome ≠ (Create w s imageUID hostPort).outcome) ∧
    ((∀ c, containerFirst w s containerID ≠ .ok c) →
      stoppedAtGuard (Start w s containerID) s 3 ∧
      stoppedAtGuard (Stop w s containerID) s 3 ∧
      stoppedAtGuard (RemoveContainer w s containerID) s 3) ∧
    (∀ c, containerFirst w s containerID = .ok c → c.running = true →
      stoppedAtGuard (Start w s containerID) s 4 ∧
      stoppedAtGuard (RemoveContainer w s containerID) s 4) ∧
    (∀ c, containerFirst w s containerID = .ok c → c.running = false →
      stoppedAtGuard (Stop w s containerID) s 4) := by
  refine ⟨?_, ?_, ?_, ?_⟩
  · intro hno
    have hcreate : Create w s imageUID hostPort = ⟨.exited 3, s, []⟩ := by
      unfold Create
      cases hq : imageFirst w s imageUID with
      | error _ => rfl
      | ok image => exact absurd hq (hno image)
    refine ⟨by simp [stoppedAtGuard, hcreate, Outcome.failed], ?_⟩
    intro w2 s2 imageUID2 hostPort2 hrt hcalls
    rw [hcreate]
    unfold Create at hcalls ⊢
    cases hq : imageFirst w2 s2 imageUID2 with
    | error _ => simp [hq] at hcalls
    | ok image =>
      cases hr : w2.runtimeErr with
      | none => exact absurd hr hrt
      | some e => simp [hr, Outcome.failed]
  · intro hno
    have hq : ∃ e, containerFirst w s containerID = .error e := by
      cases hq : containerFirst w s containerID with
      | error e => exact ⟨e, rfl⟩
      | ok c => exact absurd hq (hno c)
    obtain ⟨e, hq⟩ := hq
    simp [stoppedAtGuard, Start, Stop, RemoveContainer, hq, Outcome.failed]
  · intro c hq hr
    simp [stoppedAtGuard, Start, RemoveContainer, hq, hr, Outcome.failed]
  · intro c hq hr
    simp [stoppedAtGuard, Stop, hq, hr, Outcome.failed]

theorem guard_violation_stops_witness :
    (stoppedAtGuard (Create exWorldOK exStoreEmpty (str "nope") (str "9000")) exStoreEmpty 3 ∧
      (Create exWorldRuntimeFails exStoreEmpty (str "img1") (str "9000")).outcome ≠
        (Create exWorldOK exStoreEmpty (str "nope") (str "9000")).outcome) ∧
    (stoppedAtGuard (Start exWorldOK exStoreEmpty (str "0123456789")) exStoreEmpty 3 ∧
      stoppedAtGuard (Stop exWorldOK exStoreEmpty (str "0123456789")) exStoreEmpty 3 ∧
      stoppedAtGuard (RemoveContainer exWorldOK exStoreEmpty (str "0123456789")) exStoreEmpty 3) ∧
    (stoppedAtGuard (Start exWorldOK exStoreRunning (str "0123456789")) exStoreRunning 4 ∧
      stoppedAtGuard (RemoveContainer exWorldOK exStoreRunning (str "0123456789"))
        exStoreRunning 4) ∧
    stoppedAtGuard (Stop exWorldOK exStoreStopped (str "0123456789")) exStoreStopped 4 :=
  have hc := (guard_violation_stops exWorldOK exStoreEmpty (str "nope") (str "9000")
    (str "0123456789")).1 (fun image h => by cases (show Except.error (notFound "image") = Except.ok image from h))
  ⟨⟨hc.1, (hc.2 exWorldRuntimeFails exStoreEmpty (str "img1") (str "9000")
      (by decide) (by decide)).2⟩,
   (guard_violation_stops exWorldOK exStoreEmpty (str "nope") (str "9000")
      (str "0123456789")).2.1 (fun c h => by cases (show Except.error (notFound "container") = Except.ok c from h)),
   (guard_violation_stops exWorldOK exStoreRunning (str "nope") (str "9000")
      (str "0123456789")).2.2.1 exRunning rfl rfl,
   (guard_violation_stops exWorldOK exStoreStopped (str "nope") (str "9000")
      (str "0123456789")).2.2.2 exStopped rfl rfl⟩

/-! ## Create -/

/-- C6: when imageUID resolves to an Image, the engine create call succeeds
with an identifier of at least 10 bytes and the store write succeeds, Create
issues one engine call, a container-create binding container port 8080/tcp to
hostPort on 0.0.0.0, returns a nil error, leaves the Images and the Containers
already stored as they were, and appends one Container whose uid is the first
10 bytes of the identifier, whose port is hostPort, whose running flag is
false and whose image edge is the resolved Image. -/
theorem Create_adds_one_record (w : World) (s : Store) (imageUID hostPort : GoString)
    (image : Image)
    (himage : imageFirst w s imageUID = .ok image)
    (hrt : w.runtimeErr = none)
    (hlen : 10 ≤ w.resp.ID.length)
    (hwrite : w.writeErr = none) :
    (Create w s imageUID hostPort).outcome = .returned w.resp none ∧
    (Create w s imageUID hostPort).calls =
      [.ContainerCreate
        { Image := image.uid, Tty := true, ExposedPorts := [str "8080/tcp"] }
        { PortBindings := [(str "8080/tcp", [{ HostIP := str "0.0.0.0", HostPort := hostPort }])] }
        image.uid] ∧
    (Create w s imageUID hostPort).store.images = s.images ∧
    (Create w s imageUID hostPort).store.containers = s.containers ++
      [{ id := w.newID, uid := w.resp.ID.take 10, port := hostPort, running := false,
         created_at := w.now, image := [image.id] }] := by
  have hslice : slice w.resp.ID 0 10 = some (w.resp.ID.take 10) := by
    simp [slice, hlen]
  simp [Create, himage, hrt, hslice, containerCreateSave, hwrite]

theorem Create_adds_one_record_witness :
    (Create exWorldOK exStoreEmpty (str "img1") (str "9000")).outcome
      = .returned exWorldOK.resp none ∧
    (Create exWorldOK exStoreEmpty (str "img1") (str "9000")).calls =
      [.ContainerCreate
        { Image := exImage.uid, Tty := true, ExposedPorts := [str "8080/tcp"] }
        { PortBindings :=
            [(str "8080/tcp", [{ HostIP := str "0.0.0.0", HostPort := str "9000" }])] }
        exImage.uid] ∧
    (Create exWorldOK exStoreEmpty (str "img1") (str "9000")).store.images
      = exStoreEmpty.images ∧
    (Create exWorldOK exStoreEmpty (str "img1") (str "9000")).store.containers
      = exStoreEmpty.containers ++
      [{ id := exWorldOK.newID, uid := exWorldOK.resp.ID.take 10, port := str "9000",
         running := false, created_at := exWorldOK.now, image := [exImage.id] }] :=
  Create_adds_one_record exWorldOK exStoreEmpty (str "img1") (str "9000") exImage rfl rfl
    (by decide) rfl

/-! ## Store write failures -/

/-- Create, Stop and RemoveContainer hand a failed store write back to the
caller. -/
theorem write_failure_returned (w : World) (s : Store)
    (imageUID hostPort containerID : GoString) (e : GoError)
    (hrt : w.runtimeErr = none) (hwrite : w.writeErr = some e) :
    ((Create w s imageUID hostPort).calls ≠ [] → 10 ≤ w.resp.ID.length →
      (Create w s imageUID hostPort).outcome = .returned w.resp (some e)) ∧
    ((Stop w s containerID).calls ≠ [] →
      (Stop w s containerID).outcome = .returned () (some e)) ∧
    ((RemoveContainer w s containerID).calls ≠ [] →
      (RemoveContainer w s containerID).outcome = .returned () (some e)) := by
  refine ⟨?_, ?_, ?_⟩
  · intro hcalls hlen
    have hslice : slice w.resp.ID 0 10 = some (w.resp.ID.take 10) := by
      simp [slice, hlen]
    unfold Create at hcalls ⊢
    cases hq : imageFirst w s imageUID with
    | error _ => simp [hq] at hcalls
    | ok image => simp [hrt, hslice, containerCreateSave, hwrite]
  · unfold Stop
    cases containerFirst w s containerID with
    | error _ => simp
    | ok c => cases hr : c.running <;> simp [hrt, hr, containerSetRunning, hwrite]
  · unfold RemoveContainer
    cases containerFirst w s containerID with
    | error _ => simp
    | ok c => cases hr : c.running <;> simp [hrt, hr, containerDeleteWhereUID, hwrite]

/-- C7, at the failing input: the engine starts the container and the store
write that follows fails with "database is locked"; Start issued its engine
call and returns a nil error, so the store failure never reaches the
caller. -/
theorem Start_swallows_write_failure :
    exWorldWriteFails.runtimeErr = none ∧
    exWorldWriteFails.writeErr = some (str "database is locked") ∧
    (containerSetRunning exWorldWriteFails exStoreStopped exStopped true).2
      = some (str "database is locked") ∧
    (Start exWorldWriteFails exStoreStopped (str "0123456789")).calls
      = [.ContainerStart (str "0123456789")] ∧
    (Start exWorldWriteFails exStoreStopped (str "0123456789")).outcome = .returned () none := by
  decide


/-! ## Runner files -/

theorem RenderRunnerTpl_cons_ok (tpl : Template) (join : PathJoin) (dir : GoString)
    (solver : Solver) (rest : List Solver)
    (h : 3 ≤ (stringsSplit slash solver.Class).length) :
    RenderRunnerTpl tpl join dir (solver :: rest) =
      ⟨(RenderRunnerTpl tpl join dir rest).outcome,
       runnerContext solver :: (RenderRunnerTpl tpl join dir rest).executed,
       runnerFile tpl join dir solver :: (RenderRunnerTpl tpl join dir rest).writes⟩ := by
  rcases hsplit : stringsSplit slash solver.Class with _ | ⟨a, _ | ⟨b, _ | ⟨c, tl⟩⟩⟩
  · simp [hsplit] at h
  · simp [hsplit] at h
  · simp [hsplit] at h
  · simp [RenderRunnerTpl, runnerContext, runnerFile, hsplit]

theorem RenderRunnerTpl_cons_short (tpl : Template) (join : PathJoin) (dir : GoString)
    (solver : Solver) (rest : List Solver)
    (h : (stringsSplit slash solver.Class).length < 3) :
    RenderRunnerTpl tpl join dir (solver :: rest) = ⟨.panicked, [], []⟩ := by
  rcases hsplit : stringsSplit slash solver.Class with _ | ⟨a, _ | ⟨b, _ | ⟨c, tl⟩⟩⟩
  · simp [RenderRunnerTpl, hsplit]
  · simp [RenderRunnerTpl, hsplit]
  · simp [RenderRunnerTpl, hsplit]
  · rw [hsplit] at h
    simp only [List.length_cons] at h
    omega

theorem RenderRunnerTpl_all_ok (tpl : Template) (join : PathJoin) (dir : GoString)
    (solvers : List Solver)
    (h : ∀ solver ∈ solvers, 3 ≤ (stringsSplit slash solver.Class).length) :
    RenderRunnerTpl tpl join dir solvers =
      ⟨.finished, solvers.map runnerContext, solvers.map (runnerFile tpl join dir)⟩ := by
  induction solvers with
  | nil => rfl
  | cons solver rest ih =>
    rw [RenderRunnerTpl_cons_ok tpl join dir solver rest (h solver (List.mem_cons_self _ _)),
      ih (fun x hx => h x (List.mem_cons_of_mem _ hx))]
    rfl

theorem RenderRunnerTpl_stops_at_short (tpl : Template) (join : PathJoin) (dir : GoString)
    (pre : List Solver) (bad : Solver) (post : List Solver)
    (hpre : ∀ solver ∈ pre, 3 ≤ (stringsSplit slash solver.Class).length)
    (hbad : (stringsSplit slash bad.Class).length < 3) :
    RenderRunnerTpl tpl join dir (pre ++ bad :: post) =
      ⟨.panicked, pre.map runnerContext, pre.map (runnerFile tpl join dir)⟩ := by
  induction pre with
  | nil => simpa using RenderRunnerTpl_cons_short tpl join dir bad post hbad
  | cons solver rest ih =>
    rw [List.cons_append,
      RenderRunnerTpl_cons_ok tpl join dir solver _ (hpre solver (List.mem_cons_self _ _)),
      ih (fun x hx => hpre x (List.mem_cons_of_mem _ hx))]
    rfl

/-- C8, as the code has it: RenderRunnerTpl fails, by the panic of an index
past the end, exactly when some solver's class split on "/" has fewer than
three components; when every class has at least three components the call
finishes, each solver's template receives Package, Filename and Classname
equal to the first, second and third component, and its output is written to
"runner_<solver.Name>.py" joined to the target directory. -/
theorem RenderRunnerTpl_fails_iff_short (tpl : Template) (join : PathJoin) (dir : GoString)
    (solvers : List Solver) :
    ((RenderRunnerTpl tpl join dir solvers).outcome = .panicked ↔
      ∃ solver ∈ solvers, (stringsSplit slash solver.Class).length < 3) ∧
    ((∀ solver ∈ solvers, 3 ≤ (stringsSplit slash solver.Class).length) →
      (RenderRunnerTpl tpl join dir solvers).outcome = .finished ∧
      (RenderRunnerTpl tpl join dir solvers).executed = solvers.map (fun solver =>
        [(str "Package", (stringsSplit slash solver.Class).getD 0 []),
         (str "Filename", (stringsSplit slash solver.Class).getD 1 []),
         (str "Classname", (stringsSplit slash solver.Class).getD 2 [])]) ∧
      (RenderRunnerTpl tpl join dir solvers).writes = solvers.map (fun solver =>
        ⟨join dir (str "runner_" ++ solver.Name ++ str ".py"),
         (tpl (runnerContext solver)).1⟩)) := by
  constructor
  · induction solvers with
    | nil => simp [RenderRunnerTpl]
    | cons solver rest ih =>
      by_cases h : 3 ≤ (stringsSplit slash solver.Class).length
      · rw [RenderRunnerTpl_cons_ok tpl join dir solver rest h]
        simp only [List.mem_cons, exists_eq_or_imp]
        rw [ih]
        constructor
        · intro hex
          exact Or.inr hex
        · rintro (hs | hex)
          · omega
          · exact hex
      · have hlt : (stringsSplit slash solver.Class).length < 3 := by omega
        rw [RenderRunnerTpl_cons_short tpl join dir solver rest hlt]
        simp only [List.mem_cons, exists_eq_or_imp, true_iff]
        exact Or.inl hlt
  · intro hall
    rw [RenderRunnerTpl_all_ok tpl join dir solvers hall]
    exact ⟨rfl, rfl, rfl⟩

theorem RenderRunnerTpl_fails_iff_short_witness :
    (RenderRunnerTpl exTemplate exJoin (str "/tmp") [exSolverGood, exSolverLong]).outcome
      = .finished ∧
    (RenderRunnerTpl exTemplate exJoin (str "/tmp") [exSolverGood, exSolverLong]).executed =
      [[(str "Package", str "pkg"), (str "Filename", str "file"), (str "Classname", str "Cls")],
       [(str "Package", str "a"), (str "Filename", str "b"), (str "Classname", str "c")]] ∧
    (RenderRunnerTpl exTemplate exJoin (str "/tmp") [exSolverGood, exSolverLong]).writes =
      [exSolverGood, exSolverLong].map (fun solver =>
        ⟨exJoin (str "/tmp") (str "runner_" ++ solver.Name ++ str ".py"),
         (exTemplate (runnerContext solver)).1⟩) :=
  (RenderRunnerTpl_fails_iff_short exTemplate exJoin (str "/tmp")
    [exSolverGood, exSolverLong]).2 (by decide)

/-- C8 as stated fails: a class of four components, "a/b/c/d", is not
exactly three components, yet RenderRunnerTpl does not fail on it. -/
theorem RenderRunnerTpl_accepts_four_components :
    ¬ ((RenderRunnerTpl exTemplate exJoin (str "/tmp") [exSolverLong]).outcome = .panicked ↔
      ∃ solver ∈ [exSolverLong], (stringsSplit slash solver.Class).length ≠ 3) := by
  decide

/-- C10, as the code has it: when the first solver whose class has fewer
than three components comes after the solvers `pre`, all of at least three
components, RenderRunnerTpl fails at it having written exactly the runner
files of `pre`, in order, and none for it or for a later solver; no file at
all is written when no solver precedes it. -/
theorem RenderRunnerTpl_writes_until_short (tpl : Template) (join : PathJoin) (dir : GoString)
    (pre : List Solver) (bad : Solver) (post : List Solver)
    (hpre : ∀ solver ∈ pre, 3 ≤ (stringsSplit slash solver.Class).length)
    (hbad : (stringsSplit slash bad.Class).length < 3) :
    (RenderRunnerTpl tpl join dir (pre ++ bad :: post)).outcome = .panicked ∧
    (RenderRunnerTpl tpl join dir (pre ++ bad :: post)).writes = pre.map (fun solver =>
      ⟨join dir (str "runner_" ++ solver.Name ++ str ".py"), (tpl (runnerContext solver)).1⟩) ∧
    (pre = [] → (RenderRunnerTpl tpl join dir (pre ++ bad :: post)).writes = []) := by
  rw [RenderRunnerTpl_stops_at_short tpl join dir pre bad post hpre hbad]
  refine ⟨rfl, rfl, ?_⟩
  intro hnil
  simp [hnil]

theorem RenderRunnerTpl_writes_until_short_witness :
    (RenderRunnerTpl exTemplate exJoin (str "/tmp")
      ([exSolverGood] ++ exSolverShort :: [exSolverGood])).outcome = .panicked ∧
    (RenderRunnerTpl exTemplate exJoin (str "/tmp")
      ([exSolverGood] ++ exSolverShort :: [exSolverGood])).writes =
      [exSolverGood].map (fun solver =>
        ⟨exJoin (str "/tmp") (str "runner_" ++ solver.Name ++ str ".py"),
         (exTemplate (runnerContext solver)).1⟩) ∧
    ([exSolverGood] = [] → (RenderRunnerTpl exTemplate exJoin (str "/tmp")
      ([exSolverGood] ++ exSolverShort :: [exSolverGood])).writes = []) :=
  RenderRunnerTpl_writes_until_short exTemplate exJoin (str "/tmp") [exSolverGood] exSolverShort
    [exSolverGood] (by decide) (by decide)

/-- C10 as stated fails: with a well-formed solver before the malformed one
the runner file of the first is written before the call fails, and a class of
four components is written out like a well-formed one. -/
theorem RenderRunnerTpl_writes_despite_malformed :
    (∃ solver ∈ [exSolverGood, exSolverShort], (stringsSplit slash solver.Class).length ≠ 3) ∧
    (RenderRunnerTpl exTemplate exJoin (str "/tmp") [exSolverGood, exSolverShort]).writes =
      [⟨str "/tmp/runner_s1.py", exTemplate (runnerContext exSolverGood) |>.1⟩] ∧
    (∃ solver ∈ [exSolverLong], (stringsSplit slash solver.Class).length ≠ 3) ∧
    (RenderRunnerTpl exTemplate exJoin (str "/tmp") [exSolverLong]).writes ≠ [] := by
  decide


/-! ## Snippet files -/

theorem sep_ne_nil : str " && " ≠ [] := by decide

theorem stringsJoin_append_head (sep a b : GoString) (rest : List GoString) :
    stringsJoin sep ((a ++ b) :: rest) = a ++ stringsJoin sep (b :: rest) := by
  cases rest with
  | nil => simp [stringsJoin]
  | cons y tl => simp [stringsJoin, List.append_assoc]

theorem scanLoop_of_ne_nil (lines : List GoString) (commands : GoString)
    (h : commands ≠ []) :
    scanLoop commands lines = stringsJoin (str " && ") (commands :: lines) := by
  induction lines generalizing commands with
  | nil => simp [scanLoop, stringsJoin]
  | cons text rest ih =>
    have hne : commands ++ str " && " ++ text ≠ [] := by
      simp [h]
    rw [scanLoop, if_neg h, ih _ hne, List.append_assoc, stringsJoin_append_head,
      stringsJoin_append_head]
    simp [stringsJoin]

theorem scanLoop_nil (lines : List GoString) :
    scanLoop [] lines
      = stringsJoin (str " && ") (lines.dropWhile (fun l => decide (l = []))) := by
  induction lines with
  | nil => simp [scanLoop, stringsJoin]
  | cons text rest ih =>
    by_cases ht : text = []
    · subst ht
      simpa [scanLoop, List.dropWhile] using ih
    · rw [scanLoop, if_pos rfl, scanLoop_of_ne_nil rest text ht]
      simp [List.dropWhile, ht]

theorem filter_nonempty_of_all (lines : List GoString) (h : ∀ l ∈ lines, l ≠ []) :
    lines.filter (fun l => !decide (l = [])) = lines := by
  rw [List.filter_eq_self]
  intro l hl
  simp [h l hl]

theorem dropWhile_empty_of_all (lines : List GoString) (h : ∀ l ∈ lines, l ≠ []) :
    lines.dropWhile (fun l => decide (l = [])) = lines := by
  cases lines with
  | nil => rfl
  | cons a tl => simp [List.dropWhile, h a (List.mem_cons_self _ _)]

/-- C9, as the code has it: for a readable setup.sh (respectively prepip.sh)
with the line sequence L, the Setup (respectively PrePIP) value
RenderDockerfile feeds to the template is L without its leading empty lines,
every later line kept in order, an empty one as an empty command, joined with
" && "; when L has no empty line this is the non-empty lines of L joined with
" && ", so the lines "apt-get update", "apt-get install -y x" give
"apt-get update && apt-get install -y x". -/
theorem RenderDockerfile_snippet_value (tpl : Template) (join : PathJoin)
    (L : List GoString) (other : Snippet) (solvername targetFilePath : GoString) :
    (RenderDockerfile tpl join (.readable L) other solvername targetFilePath).executed =
      [[(str "Solvername", solvername),
        (str "Setup", stringsJoin (str " && ") (L.dropWhile (fun l => decide (l = [])))),
        (str "PrePIP", snippetCommands other)]] ∧
    (RenderDockerfile tpl join other (.readable L) solvername targetFilePath).executed =
      [[(str "Solvername", solvername),
        (str "Setup", snippetCommands other),
        (str "PrePIP", stringsJoin (str " && ") (L.dropWhile (fun l => decide (l = []))))]] ∧
    ((∀ l ∈ L, l ≠ []) →
      stringsJoin (str " && ") (L.dropWhile (fun l => decide (l = [])))
        = specSnippetCommands L) ∧
    (RenderDockerfile tpl join (.readable exLines) other solvername targetFilePath).executed =
      [[(str "Solvername", solvername),
        (str "Setup", str "apt-get update && apt-get install -y x"),
        (str "PrePIP", snippetCommands other)]] := by
  refine ⟨?_, ?_, ?_, ?_⟩
  · simp [RenderDockerfile, snippetCommands, scanLoop_nil]
  · simp [RenderDockerfile, snippetCommands, scanLoop_nil]
  · intro hall
    rw [specSnippetCommands, filter_nonempty_of_all L hall, dropWhile_empty_of_all L hall]
  · have hex : scanLoop [] exLines = str "apt-get update && apt-get install -y x" := by decide
    simp [RenderDockerfile, snippetCommands, hex]

theorem RenderDockerfile_snippet_value_witness :
    stringsJoin (str " && ") (exLines.dropWhile (fun l => decide (l = [])))
      = specSnippetCommands exLines :=
  (RenderDockerfile_snippet_value exTemplate exJoin exLines .absent (str "s1")
    (str "/tmp")).2.2.1 (by decide)

/-- C9 as stated fails: with an empty line between two commands the Setup
value keeps an empty command, "apt-get update &&  && apt-get install -y x",
which is not the non-empty lines joined with " && ". -/
theorem RenderDockerfile_keeps_empty_line :
    (RenderDockerfile exTemplate exJoin (.readable exLinesBlank) .absent (str "s1")
      (str "/tmp")).executed.map (fun ctx => ctx.lookup (str "Setup"))
      = [some (str "apt-get update &&  && apt-get install -y x")] ∧
    specSnippetCommands exLinesBlank = str "apt-get update && apt-get install -y x" ∧
    (RenderDockerfile exTemplate exJoin (.readable exLinesBlank) .absent (str "s1")
      (str "/tmp")).executed.map (fun ctx => ctx.lookup (str "Setup"))
      ≠ [some (specSnippetCommands exLinesBlank)] := by
  decide


/-! ## The lifecycle of one container -/

theorem Create_adds_record_eq (w : World) (s : Store) (imageUID hostPort : GoString)
    (image : Image)
    (himage : imageFirst w s imageUID = .ok image)
    (hrt : w.runtimeErr = none)
    (hlen : 10 ≤ w.resp.ID.length)
    (hwrite : w.writeErr = none) :
    (Create w s imageUID hostPort).outcome = .returned w.resp none ∧
    (Create w s imageUID hostPort).store
      = ⟨s.images, s.containers ++ [createdRecord w image hostPort false]⟩ := by
  have hslice : slice w.resp.ID 0 10 = some (w.resp.ID.take 10) := by
    simp [slice, hlen]
  simp [Create, himage, hrt, hslice, containerCreateSave, hwrite, createdRecord]

/-- C11: from a store that holds the Image resolved by imageUID and no
Container, with every collaborator call succeeding and an engine identifier
of at least 10 bytes: Create on host port "9000" returns a nil error and
stores one Container c, not running; Start(c) returns nil, stores
running=true and issues exactly one engine start; a second Start(c) is
stopped by the already-started guard (exit status 4) with no engine call and
the store untouched; Stop(c) returns nil and stores running=false;
RemoveContainer(c) returns nil, deletes the record and issues exactly one
engine remove; the query for c then answers not found. -/
theorem lifecycle_scenario (s0 : Store) (img1 : Image) (imageUID : GoString)
    (w1 w2 w3 w4 w5 w6 : World)
    (hempty : s0.containers = [])
    (himage : s0.images.find? (fun i => decide (i.uid = imageUID)) = some img1)
    (h1 : w1.allSucceed) (h2 : w2.allSucceed) (h3 : w3.allSucceed) (h4 : w4.allSucceed)
    (h5 : w5.allSucceed) (h6 : w6.allSucceed)
    (hlen : 10 ≤ w1.resp.ID.length) :
    (Create w1 s0 imageUID (str "9000")).outcome = .returned w1.resp none ∧
    (Create w1 s0 imageUID (str "9000")).store
      = ⟨s0.images, [createdRecord w1 img1 (str "9000") false]⟩ ∧
    Start w2 ⟨s0.images, [createdRecord w1 img1 (str "9000") false]⟩ (w1.resp.ID.take 10)
      = ⟨.returned () none, ⟨s0.images, [createdRecord w1 img1 (str "9000") true]⟩,
         [.ContainerStart (w1.resp.ID.take 10)]⟩ ∧
    stoppedAtGuard
      (Start w3 ⟨s0.images, [createdRecord w1 img1 (str "9000") true]⟩ (w1.resp.ID.take 10))
      ⟨s0.images, [createdRecord w1 img1 (str "9000") true]⟩ 4 ∧
    Stop w4 ⟨s0.images, [createdRecord w1 img1 (str "9000") true]⟩ (w1.resp.ID.take 10)
      = ⟨.returned () none, ⟨s0.images, [createdRecord w1 img1 (str "9000") false]⟩,
         [.ContainerStop (w1.resp.ID.take 10)]⟩ ∧
    RemoveContainer w5 ⟨s0.images, [createdRecord w1 img1 (str "9000") false]⟩
        (w1.resp.ID.take 10)
      = ⟨.returned () none, ⟨s0.images, []⟩, [.ContainerRemove (w1.resp.ID.take 10)]⟩ ∧
    containerFirst w6 ⟨s0.images, []⟩ (w1.resp.ID.take 10) = .error (notFound "container") := by
  obtain ⟨hq1, hr1, hw1⟩ := h1
  obtain ⟨hq2, hr2, hw2⟩ := h2
  obtain ⟨hq3, hr3, hw3⟩ := h3
  obtain ⟨hq4, hr4, hw4⟩ := h4
  obtain ⟨hq5, hr5, hw5⟩ := h5
  obtain ⟨hq6, hr6, hw6⟩ := h6
  have hfirst : imageFirst w1 s0 imageUID = .ok img1 := by
    simp [imageFirst, hq1, himage]
  have hcreate := Create_adds_record_eq w1 s0 imageUID (str "9000") img1 hfirst hr1 hlen hw1
  refine ⟨hcreate.1, ?_, ?_, ?_, ?_, ?_, ?_⟩
  · rw [hcreate.2, hempty]
    rfl
  · simp [Start, containerFirst, hq2, hr2, containerSetRunning, hw2, createdRecord]
  · simp [stoppedAtGuard, Start, containerFirst, hq3, createdRecord, Outcome.failed]
  · simp [Stop, containerFirst, hq4, hr4, containerSetRunning, hw4, createdRecord]
  · simp [RemoveContainer, containerFirst, hq5, hr5, containerDeleteWhereUID, hw5, createdRecord]
  · simp [containerFirst, hq6]

theorem lifecycle_scenario_witness :
    (Create exWorldOK exStoreEmpty (str "img1") (str "9000")).outcome
      = .returned exWorldOK.resp none ∧
    (Create exWorldOK exStoreEmpty (str "img1") (str "9000")).store
      = ⟨exStoreEmpty.images, [createdRecord exWorldOK exImage (str "9000") false]⟩ ∧
    Start exWorldOK ⟨exStoreEmpty.images, [createdRecord exWorldOK exImage (str "9000") false]⟩
        (exWorldOK.resp.ID.take 10)
      = ⟨.returned () none,
         ⟨exStoreEmpty.images, [createdRecord exWorldOK exImage (str "9000") true]⟩,
         [.ContainerStart (exWorldOK.resp.ID.take 10)]⟩ ∧
    stoppedAtGuard
      (Start exWorldOK ⟨exStoreEmpty.images, [createdRecord exWorldOK exImage (str "9000") true]⟩
        (exWorldOK.resp.ID.take 10))
      ⟨exStoreEmpty.images, [createdRecord exWorldOK exImage (str "9000") true]⟩ 4 ∧
    Stop exWorldOK ⟨exStoreEmpty.images, [createdRecord exWorldOK exImage (str "9000") true]⟩
        (exWorldOK.resp.ID.take 10)
      = ⟨.returned () none,
         ⟨exStoreEmpty.images, [createdRecord exWorldOK exImage (str "9000") false]⟩,
         [.ContainerStop (exWorldOK.resp.ID.take 10)]⟩ ∧
    RemoveContainer exWorldOK
        ⟨exStoreEmpty.images, [createdRecord exWorldOK exImage (str "9000") false]⟩
        (exWorldOK.resp.ID.take 10)
      = ⟨.returned () none, ⟨exStoreEmpty.images, []⟩,
         [.ContainerRemove (exWorldOK.resp.ID.take 10)]⟩ ∧
    containerFirst exWorldOK ⟨exStoreEmpty.images, []⟩ (exWorldOK.resp.ID.take 10)
      = .error (notFound "container") :=
  lifecycle_scenario exStoreEmpty exImage (str "img1") exWorldOK exWorldOK exWorldOK exWorldOK
    exWorldOK exWorldOK rfl (by decide) ⟨rfl, rfl, rfl⟩ ⟨rfl, rfl, rfl⟩ ⟨rfl, rfl, rfl⟩
    ⟨rfl, rfl, rfl⟩ ⟨rfl, rfl, rfl⟩ ⟨rfl, rfl, rfl⟩ (by decide)

/-! ## What a successful call leaves alone -/

theorem map_by_key_eq_map_by_record (l : List Container) (c : Container) (b : Bool)
    (hkeys : (l.map Container.id).Nodup) (hc : c ∈ l) :
    l.map (fun x => if x.id = c.id then { x with running := b } else x)
      = l.map (fun x => if x = c then { c with running := b } else x) := by
  apply List.map_congr_left
  intro x hx
  by_cases hxc : x = c
  · subst hxc
    simp
  · have hid : x.id ≠ c.id := fun hid => hxc (List.inj_on_of_nodup_map hkeys hx hc hid)
    simp [hxc, hid]

theorem map_if_same (l : List Container) (c : Container) :
    l.map (fun x => if x = c then { c with running := c.running } else x) = l := by
  have hfun : (fun x => if x = c then { c with running := c.running } else x) = id := by
    funext x
    by_cases hxc : x = c
    · simp [hxc]
    · simp [hxc]
  rw [hfun, List.map_id]

/-- C12: in a store whose primary keys identify its Container records, a
Start or Stop that returns a nil error leaves every Image and every Container
other than the record c it resolved as it was, and of c changes at most the
running flag (its uid, port, created_at and image edge stay); a
RemoveContainer(containerID) that returns a nil error leaves every Image as it
was and keeps, unchanged and in order, exactly the Containers whose uid differs
from containerID. -/
theorem successful_call_frame (w : World) (s : Store) (containerID : GoString)
    (hkeys : (s.containers.map Container.id).Nodup) :
    ((Start w s containerID).outcome.success = true →
      (Start w s containerID).store.images = s.images ∧
      ∃ c b, s.containers.find? (fun x => decide (x.uid = containerID)) = some c ∧
        (Start w s containerID).store.containers
          = s.containers.map (fun x => if x = c then { c with running := b } else x)) ∧
    ((Stop w s containerID).outcome.success = true →
      (Stop w s containerID).store.images = s.images ∧
      ∃ c b, s.containers.find? (fun x => decide (x.uid = containerID)) = some c ∧
        (Stop w s containerID).store.containers
          = s.containers.map (fun x => if x = c then { c with running := b } else x)) ∧
    ((RemoveContainer w s containerID).outcome.success = true →
      (RemoveContainer w s containerID).store.images = s.images ∧
      (RemoveContainer w s containerID).store.containers
        = s.containers.filter (fun x => decide (x.uid ≠ containerID))) := by
  refine ⟨?_, ?_, ?_⟩
  · intro h
    unfold Start at h ⊢
    cases hq : containerFirst w s containerID with
    | error e => simp [hq, Outcome.success] at h
    | ok c =>
      obtain ⟨_, hfind⟩ := containerFirst_ok w s containerID c hq
      have hmem : c ∈ s.containers := List.mem_of_find?_eq_some hfind
      simp only [hq] at h ⊢
      cases hr : c.running with
      | true => simp [hr, Outcome.success] at h
      | false =>
        cases hrt : w.runtimeErr with
        | some e => simp [hr, hrt, Outcome.success] at h
        | none =>
          cases hwe : w.writeErr with
          | some e =>
            refine ⟨by simp [containerSetRunning, hwe], c, c.running, hfind, ?_⟩
            simp [containerSetRunning, hwe, map_if_same]
          | none =>
            refine ⟨by simp [containerSetRunning, hwe], c, true, hfind, ?_⟩
            have hmap := map_by_key_eq_map_by_record s.containers c true hkeys hmem
            simpa [containerSetRunning, hwe] using hmap
  · intro h
    unfold Stop at h ⊢
    cases hq : containerFirst w s containerID with
    | error e => simp [hq, Outcome.success] at h
    | ok c =>
      obtain ⟨_, hfind⟩ := containerFirst_ok w s containerID c hq
      have hmem : c ∈ s.containers := List.mem_of_find?_eq_some hfind
      simp only [hq] at h ⊢
      cases hr : c.running with
      | false => simp [hr, Outcome.success] at h
      | true =>
        cases hrt : w.runtimeErr with
        | some e => simp [hr, hrt, Outcome.success] at h
        | none =>
          cases hwe : w.writeErr with
          | some e => simp [hr, hrt, hwe, containerSetRunning, Outcome.success] at h
          | none =>
            refine ⟨by simp [containerSetRunning, hwe], c, false, hfind, ?_⟩
            have hmap := map_by_key_eq_map_by_record s.containers c false hkeys hmem
            simpa [containerSetRunning, hwe] using hmap
  · intro h
    unfold RemoveContainer at h ⊢
    cases hq : containerFirst w s containerID with
    | error e => simp [hq, Outcome.success] at h
    | ok c =>
      simp only [hq] at h ⊢
      cases hr : c.running with
      | true => simp [hr, Outcome.success] at h
      | false =>
        cases hrt : w.runtimeErr with
        | some e => simp [hr, hrt, Outcome.success] at h
        | none =>
          cases hwe : w.writeErr with
          | some e => simp [hr, hrt, hwe, containerDeleteWhereUID, Outcome.success] at h
          | none => simp [containerDeleteWhereUID, hwe]

theorem successful_call_frame_witness :
    ((Start exWorldOK exStoreTwo (str "0123456789")).store.images = exStoreTwo.images ∧
      ∃ c b, exStoreTwo.containers.find? (fun x => decide (x.uid = str "0123456789")) = some c ∧
        (Start exWorldOK exStoreTwo (str "0123456789")).store.containers
          = exStoreTwo.containers.map (fun x => if x = c then { c with running := b } else x)) ∧
    ((Stop exWorldOK exStoreTwo (str "abcdefghij")).store.images = exStoreTwo.images ∧
      ∃ c b, exStoreTwo.containers.find? (fun x => decide (x.uid = str "abcdefghij")) = some c ∧
        (Stop exWorldOK exStoreTwo (str "abcdefghij")).store.containers
          = exStoreTwo.containers.map (fun x => if x = c then { c with running := b } else x)) ∧
    ((RemoveContainer exWorldOK exStoreTwo (str "0123456789")).store.images
        = exStoreTwo.images ∧
      (RemoveContainer exWorldOK exStoreTwo (str "0123456789")).store.containers
        = exStoreTwo.containers.filter (fun x => decide (x.uid ≠ str "0123456789"))) :=
  ⟨(successful_call_frame exWorldOK exStoreTwo (str "0123456789") (by decide)).1 (by decide),
   (successful_call_frame exWorldOK exStoreTwo (str "abcdefghij") (by decide)).2.1 (by decide),
   (successful_call_frame exWorldOK exStoreTwo (str "0123456789") (by decide)).2.2 (by decide)⟩

end AID
